import Mathlib

/-!
Verification development for the contribution-analytics pipeline of the
GitHub-AI-analyzer repository (backend/app/services/github_service.py and
backend/app/services/scoring_engine.py).

The Python code is shallowly embedded: machine floats are modelled by exact
rationals (ℚ), Python ints by ℤ, dictionaries by structures with the fields
the code reads (with the same .get defaults), and calendar date strings by
integer day numbers (ISO "YYYY-MM-DD" strings compare lexicographically in
the same order as the days they denote, so the order structure is preserved).
Python round(x, nd) is modelled by exact round-half-to-even on ℚ.
-/

namespace GH

/-- Round-half-to-even on ℚ, the rounding rule of Python round().
Binary floating-point representation effects are outside the model. -/
def rndHalfEven (q : ℚ) : ℤ :=
  let f : ℤ := ⌊q⌋
  let r : ℚ := q - (f : ℚ)
  if r < 1/2 then f
  else if 1/2 < r then f + 1
  else if f % 2 = 0 then f else f + 1

/-- Model of Python round(q, nd). -/
def pyRound (nd : ℕ) (q : ℚ) : ℚ :=
  ((rndHalfEven (q * (10 : ℚ) ^ nd) : ℤ) : ℚ) / (10 : ℚ) ^ nd

/-- One item of contributionCalendar.weeks[].contributionDays[].
The date string is modelled as an integer day number; none models a
missing or empty "date" value (the parser skips such days). The count
models day.get of contributionCount with default 0. -/
structure DayEntry where
  date : Option ℤ
  contributionCount : ℤ
deriving DecidableEq, Repr

/-- contributionCalendar: the reported total (none when the key is absent,
in which case the code falls back to the daily sum) and the weeks. -/
structure Calendar where
  totalContributions : Option ℤ
  weeks : List (List DayEntry)
deriving DecidableEq, Repr

/-- One aliased y{YEAR} year block of the GraphQL payload, with the typed
totals the parser reads (each a .get with default 0). -/
structure YearBlock where
  totalCommitContributions : ℤ
  totalIssueContributions : ℤ
  totalPullRequestContributions : ℤ
  totalPullRequestReviewContributions : ℤ
  totalRepositoryContributions : ℤ
  restrictedContributionsCount : ℤ
  contributionCalendar : Calendar
deriving DecidableEq, Repr

/-- The raw GraphQL user payload. createdAt is the account-creation year as
parsed from the ISO timestamp (none when the field is missing, empty or
unparsable); blocks is the y{YEAR} alias lookup (none models an absent or
falsy year block). -/
structure RawData where
  createdAt : Option ℤ
  blocks : ℤ → Option YearBlock

/-- The time data parse_contributions reads from datetime.now(timezone.utc):
the current UTC year, the current day-of-year (timetuple().tm_yday, ≥ 1),
and the current UTC date as a day number (used by the streak computation
and the trailing-window cutoffs). -/
structure Clock where
  currentYear : ℤ
  dayOfYear : ℕ
  today : ℤ
deriving DecidableEq, Repr

/-- One calendar year's normalized metrics (schemas.YearlyMetrics).
The source field is_partial is named isOngoing here; is_reliable keeps
its name. -/
structure YearlyMetrics where
  year : ℤ
  total : ℤ
  per_month : ℚ
  per_week : ℚ
  active_days : ℤ
  active_day_rate : ℚ
  isOngoing : Bool
  is_reliable : Bool
  calendar_sum : ℤ
  reported_commits : ℤ
deriving DecidableEq, Repr

instance : Inhabited YearlyMetrics :=
  ⟨{ year := 0, total := 0, per_month := 0, per_week := 0, active_days := 0,
     active_day_rate := 0, isOngoing := false, is_reliable := true,
     calendar_sum := 0, reported_commits := 0 }⟩

/-- The (date, count) pairs collected from a year block's calendar:
weeks are flattened and days whose date string is empty are skipped. -/
def calendarDays (b : YearBlock) : List (ℤ × ℤ) :=
  (b.contributionCalendar.weeks.map
    (fun w => w.filterMap
      (fun d => d.date.map (fun ds => (ds, d.contributionCount))))).flatten

/-- calendar_sum: the sum of the daily calendar counts of a year block. -/
def calendarSum (b : YearBlock) : ℤ :=
  ((calendarDays b).map (fun p => p.2)).sum

/-- Number of days with a strictly positive count. -/
def activeDayCount (b : YearBlock) : ℤ :=
  (((calendarDays b).filter (fun p => 0 < p.2)).length : ℤ)

/-- reported_total: calendar.get of totalContributions with the daily sum
as the default. -/
def reportedTotal (b : YearBlock) : ℤ :=
  b.contributionCalendar.totalContributions.getD (calendarSum b)

/-- Cross-verification of a year (github_service.py lines 618-635):
returns (is_reliable, effective_total). If the reported total is positive
and the mismatch percentage exceeds 2, the year is unreliable and the
daily sum wins; if the reported total is not positive, the daily sum is
used and the year stays reliable. -/
def crossVerify (cs rep : ℤ) : Bool × ℤ :=
  if 0 < rep then
    if 2 < |((cs : ℚ)) - (rep : ℚ)| / (rep : ℚ) * 100 then (false, cs)
    else (true, rep)
  else (true, cs)

/-- The Gregorian leap-year rule as written in the source:
yr % 4 == 0 and (yr % 100 != 0 or yr % 400 == 0). -/
def isLeap (yr : ℤ) : Bool :=
  yr % 4 == 0 && (yr % 100 != 0 || yr % 400 == 0)

/-- total_days_in_year for a completed year. -/
def daysInYear (yr : ℤ) : ℤ :=
  if isLeap yr then 366 else 365

/-- Elapsed months of the in-progress year: max(day_of_year / 30.44, 1). -/
def elapsedMonthsYtd (dayOfYear : ℕ) : ℚ :=
  max ((dayOfYear : ℚ) / (3044/100)) 1

/-- Elapsed weeks of the in-progress year: max(day_of_year / 7.0, 1). -/
def elapsedWeeksYtd (dayOfYear : ℕ) : ℚ :=
  max ((dayOfYear : ℚ) / 7) 1

/-- The body of the per-year loop of parse_contributions for a year whose
data block is present: cross-verification followed by time normalization
(github_service.py lines 582-669). -/
def processYearData (ck : Clock) (yr : ℤ) (b : YearBlock) : YearlyMetrics :=
  let cs := calendarSum b
  let adc := activeDayCount b
  let rep := reportedTotal b
  let v := crossVerify cs rep
  let ongoing : Bool := decide (yr = ck.currentYear)
  let em : ℚ := if ongoing then elapsedMonthsYtd ck.dayOfYear else 12
  let ew : ℚ := if ongoing then elapsedWeeksYtd ck.dayOfYear
                else (daysInYear yr : ℚ) / 7
  { year := yr
    total := v.2
    per_month := pyRound 2 ((v.2 : ℚ) / em)
    per_week := pyRound 2 ((v.2 : ℚ) / ew)
    active_days := adc
    active_day_rate := if 0 < adc then pyRound 2 ((v.2 : ℚ) / (adc : ℚ)) else 0
    isOngoing := ongoing
    is_reliable := v.1
    calendar_sum := cs
    reported_commits := b.totalCommitContributions }

/-- The explicit zero-contribution record for a requested year whose block
is absent but which does not precede the account-creation year
(github_service.py lines 572-579; unset fields take the schema defaults). -/
def zeroYearMetrics (ck : Clock) (yr : ℤ) : YearlyMetrics :=
  { year := yr, total := 0, per_month := 0, per_week := 0, active_days := 0,
    active_day_rate := 0, isOngoing := decide (yr = ck.currentYear),
    is_reliable := true, calendar_sum := 0, reported_commits := 0 }

/-- One iteration of the per-year loop: none when the year is skipped
(absent block and year before account creation), otherwise the produced
YearlyMetrics record. -/
def entryFor (ck : Clock) (raw : RawData) (yr : ℤ) : Option YearlyMetrics :=
  match raw.blocks yr with
  | none =>
    match raw.createdAt with
    | some cy0 => if yr < cy0 then none else some (zeroYearMetrics ck yr)
    | none => some (zeroYearMetrics ck yr)
  | some b => some (processYearData ck yr b)

/-- The five requested years: list(range(current_year, current_year-5, -1)). -/
def requestedYears (ck : Clock) : List ℤ :=
  [ck.currentYear, ck.currentYear - 1, ck.currentYear - 2,
   ck.currentYear - 3, ck.currentYear - 4]

/-- Sort key of yearly_metrics.sort(key=lambda m: m.year). -/
def yearLE (a b : YearlyMetrics) : Prop := a.year ≤ b.year

instance : DecidableRel yearLE := fun a b => Int.decLe a.year b.year

instance : IsTotal YearlyMetrics yearLE := ⟨fun a b => Int.le_total a.year b.year⟩

instance : IsTrans YearlyMetrics yearLE := ⟨fun _ _ _ h h2 => le_trans h h2⟩

/-- The yearly_metrics list built by parse_contributions: one loop pass per
requested year followed by the ascending sort by year. -/
def yearlyMetricsOf (ck : Clock) (raw : RawData) : List YearlyMetrics :=
  List.insertionSort yearLE ((requestedYears ck).filterMap (entryFor ck raw))

/-- The YoY growth computation of parse_contributions (lines 695-706):
full_years keeps the non-partial years with positive totals; the last two
of them are compared on per_week. Returns (growth_rate, is_trending_up). -/
def growthOf (ms : List YearlyMetrics) : ℚ × Bool :=
  let fullYears := ms.filter (fun m => !m.isOngoing && decide (0 < m.total))
  if 2 ≤ fullYears.length then
    let prev := (fullYears.getD (fullYears.length - 2) default).per_week
    let curr := (fullYears.getD (fullYears.length - 1) default).per_week
    if 0 < prev then
      let g := pyRound 1 ((curr - prev) / prev * 100)
      (g, decide (0 < g))
    else (0, false)
  else (0, false)

/-- The distinct active dates, ascending: sorted(set of dates with count>0)
of _compute_streaks. -/
def activeDates (days : List (ℤ × ℤ)) : List ℤ :=
  List.insertionSort (· ≤ ·)
    (((days.filter (fun p => 0 < p.2)).map Prod.fst).dedup)

/-- The forward scan of _compute_streaks computing the longest run:
longest/run start at 1 and a gap of exactly one day extends the run. -/
def scanLongest : ℤ → ℕ → ℕ → List ℤ → ℕ
  | _, _, longest, [] => longest
  | prev, run, longest, d :: rest =>
    if d - prev = 1 then scanLongest d (run + 1) (max longest (run + 1)) rest
    else scanLongest d 1 longest rest

/-- The backward walk of _compute_streaks on the reversed date list:
count of the leading run of consecutive (difference exactly 1) dates. -/
def goBack : List ℤ → ℕ
  | [] => 0
  | [_] => 1
  | x :: y :: rest => if x - y = 1 then 1 + goBack (y :: rest) else 1

/-- _compute_streaks: returns (longest_streak, current_streak). The current
streak is 0 unless the most recent active date is today or yesterday. -/
def computeStreaks (days : List (ℤ × ℤ)) (today : ℤ) : ℕ × ℕ :=
  match activeDates days with
  | [] => (0, 0)
  | d0 :: tl =>
    let longest := scanLongest d0 1 1 tl
    let lastActive := tl.getLastD d0
    if lastActive = today ∨ lastActive = today - 1 then
      (longest, goBack ((d0 :: tl).reverse))
    else (longest, 0)

/-- The Python exception values the GraphQL executor can produce. -/
inductive PyExc
  | valueError (msg : String)
  | runtimeError (msg : String)
  | httpStatusError (status : ℕ)
  | networkError
deriving DecidableEq, Repr

/-- The Python class of an exception value. Both the missing-credential
failure and the GraphQL-errors failure are plain ValueError in the source. -/
def pyType : PyExc → String
  | .valueError _ => "ValueError"
  | .runtimeError _ => "RuntimeError"
  | .httpStatusError _ => "HTTPStatusError"
  | .networkError => "ConnectError"

/-- The "data" object of a successful GraphQL response: data.get of user
(none models a null or missing user). -/
structure GqlData where
  user : Option RawData

/-- One HTTP response as the executor inspects it: the status code, the
optional Retry-After header (already converted to seconds), the optional
GraphQL-level errors array (the messages), and the data object. -/
structure HttpResponse where
  status : ℕ
  retryAfter : Option ℚ
  errors : Option (List String)
  data : GqlData

/-- One outcome of an HTTP POST attempt: a response, or a network-level
connection or timeout error (httpx.ConnectError / httpx.ReadTimeout). -/
inductive NetEvent
  | resp (r : HttpResponse)
  | netError

/-- The retry loop of _graphql_query (lines 354-413), one iteration per
remaining attempt, consuming one network event per iteration. State:
remaining attempts, current backoff, last stored network exception, and
the sleeps performed so far. When the attempt budget reaches zero the
stored exception (or the fallback RuntimeError) is raised. An exhausted
event list also ends the loop the same way (in the source every iteration
always yields an event, so theorems use sufficiently long event lists). -/
def gqlLoop : List NetEvent → ℕ → ℚ → Option PyExc → List ℚ →
    Except PyExc GqlData × List ℚ
  | _, 0, _, lastExc, sleeps =>
    (.error (lastExc.getD (.runtimeError "GraphQL query failed after retries")),
     sleeps)
  | [], _ + 1, _, lastExc, sleeps =>
    (.error (lastExc.getD (.runtimeError "GraphQL query failed after retries")),
     sleeps)
  | .netError :: rest, n + 1, backoff, _, sleeps =>
    gqlLoop rest n (backoff * 2) (some .networkError) (sleeps ++ [backoff])
  | .resp r :: rest, n + 1, backoff, lastExc, sleeps =>
    if r.status = 502 ∨ r.status = 503 then
      gqlLoop rest n (backoff * 2) lastExc (sleeps ++ [backoff])
    else if r.status = 403 ∧ r.retryAfter.isSome then
      gqlLoop rest n backoff lastExc (sleeps ++ [min (r.retryAfter.getD 0) 60])
    else if 400 ≤ r.status then
      (.error (.httpStatusError r.status), sleeps)
    else
      match r.errors with
      | some msgs =>
        (.error (.valueError ("GraphQL errors: " ++ String.intercalate "; " msgs)),
         sleeps)
      | none => (.ok r.data, sleeps)

/-- _graphql_query: the bearer-credential gate followed by the retry loop
with 3 total attempts and an initial backoff of 1 second. -/
def graphqlQuery (tokenPresent : Bool) (events : List NetEvent) :
    Except PyExc GqlData × List ℚ :=
  if tokenPresent then gqlLoop events 3 1 none []
  else (.error (.valueError "GITHUB_TOKEN is required for the GraphQL API"), [])

/-- fetch_contribution_data (lines 437-516): cached value if present, None
when the token is absent, otherwise the query result with every raised
exception converted to None and a null user converted to None. -/
def fetchContributionData (cached : Option RawData) (tokenPresent : Bool)
    (events : List NetEvent) : Option RawData :=
  match cached with
  | some v => some v
  | none =>
    if !tokenPresent then none
    else
      match (graphqlQuery tokenPresent events).1 with
      | .ok d =>
        match d.user with
        | some u => some u
        | none => none
      | .error _ => none

/-- The fields of schemas.ActivityOverview the scorer reads. -/
structure ActivityOverviewL where
  moving_average_3yr : ℚ
  momentum_index : ℚ
  volatility_score : ℚ
  trend_signal : String
deriving DecidableEq, Repr

/-- schemas.ValidationResult. -/
structure ValidationResultL where
  is_valid : Bool
  anomalies : List String
  incomplete_years : List ℤ
  unreliable_years : List ℤ
deriving DecidableEq, Repr

/-- The fields of schemas.ContributionData the activity scorer reads; the
contribution_breakdown dictionary entries are the four keys the scorer
looks up (each a .get with default 0). -/
structure ContributionDataL where
  yearly_metrics : List YearlyMetrics
  weekly_average : ℚ
  longest_streak : ℤ
  current_streak : ℤ
  active_days : ℤ
  last_12_months_contributions : ℤ
  commits : ℤ
  pull_requests : ℤ
  reviews : ℤ
  issues : ℤ
  growth_rate : ℚ
  activity_overview : Option ActivityOverviewL
  validation : Option ValidationResultL
deriving DecidableEq, Repr

/-- The fields of schemas.CommitActivity the fallback scorer reads. -/
structure CommitActivityL where
  total_commits : ℤ
  recent_commits : ℤ
  commit_frequency : ℚ
  longest_streak : ℤ
  current_streak : ℤ
deriving DecidableEq, Repr

/-- The trend-signal lookup table of _activity_score_from_contributions
(scoring_engine.py lines 197-205), including the dictionary .get default
of 7.5 for an unknown signal. -/
def trendPointsMap (sig : String) : ℚ :=
  if sig = "strong_growth" then 15
  else if sig = "growth" then 12
  else if sig = "stable" then 9
  else if sig = "decline" then 5
  else if sig = "strong_decline" then 2
  else if sig = "insufficient_data" then 15/2
  else 15/2

/-- The trend-signal points: 7.5 when activity_overview is None, otherwise
the lookup on its trend_signal. -/
def trendPoints (ov : Option ActivityOverviewL) : ℚ :=
  match ov with
  | none => 15/2
  | some o => trendPointsMap o.trend_signal

/-- The trailing-12-month volume component: min(last_12_months / 400 * 10, 10). -/
def recencyVolume (last12 : ℤ) : ℚ :=
  min ((last12 : ℚ) / 400 * 10) 10

/-- The recency & momentum factor (lines 189-215): volume points plus
trend-signal points. -/
def momentumScore (cd : ContributionDataL) : ℚ :=
  recencyVolume cd.last_12_months_contributions + trendPoints cd.activity_overview

/-- _activity_score_from_contributions (lines 131-259), producing the final
clamped and rounded 0-100 sub-score. -/
def activityScoreFromContributions (cd : ContributionDataL) : ℚ :=
  let fullYears := cd.yearly_metrics.filter (fun m => !m.isOngoing)
  let effort : ℚ :=
    match fullYears.getLast? with
    | some lf => min (lf.per_week / 10 * 30) 30
    | none => min (cd.weekly_average / 10 * 30) 30
  let streakPts : ℚ := min ((cd.longest_streak : ℚ) / 30 * 12) 12
  let currentBonus : ℚ := min ((cd.current_streak : ℚ) / 14 * 3) 3
  let volPts : ℚ :=
    match cd.activity_overview with
    | some o => max (10 * (1 - min o.volatility_score 1)) 0
    | none => 0
  let stability := streakPts + currentBonus + volPts
  let momentum := momentumScore cd
  let diversity : ℚ :=
    min ((cd.commits : ℚ) / 200 * 8) 8 + min ((cd.pull_requests : ℚ) / 20 * 5) 5
      + min ((cd.reviews : ℚ) / 10 * 4) 4 + min ((cd.issues : ℚ) / 10 * 3) 3
  let score := effort + stability + momentum + diversity
  let score :=
    match cd.validation with
    | some v =>
      if !v.is_valid then
        max (score - min ((v.unreliable_years.length : ℚ) * 3) 10) 0
      else score
    | none => score
  pyRound 1 (min score 100)

/-- _activity_score_from_rest (lines 265-329): the fallback four-factor
score. accountAgeDays models (now - created_date).days. -/
def activityScoreFromRest (ca : CommitActivityL) (accountAgeDays : ℚ) : ℚ :=
  let freq := min (ca.commit_frequency / 15 * 40) 40
  let recent := min ((ca.recent_commits : ℚ) / 100 * 30) 30
  let streak := min ((ca.longest_streak : ℚ) / 30 * 20) 20
  let maturity := min (accountAgeDays / 365 / 2 * 10) 10
  pyRound 1 (freq + recent + streak + maturity)

/-- _calculate_activity_score (lines 108-125): dispatches on the
availability of contribution data, REST fallback otherwise. -/
def calculateActivityScore (cd : Option ContributionDataL)
    (ca : CommitActivityL) (accountAgeDays : ℚ) : ℚ :=
  match cd with
  | some c => activityScoreFromContributions c
  | none => activityScoreFromRest ca accountAgeDays

/-- The growth computation as the specification words it: the two most
recent full (non-partial) years are compared, with no requirement on
their totals. Written for comparison against growthOf. -/
def specGrowthClaim (ms : List YearlyMetrics) : ℚ × Bool :=
  match (ms.filter (fun m => !m.isOngoing)).reverse with
  | c :: p :: _ =>
    if 0 < p.per_week then
      let g := pyRound 1 ((c.per_week - p.per_week) / p.per_week * 100)
      (g, decide (0 < g))
    else (0, false)
  | _ => (0, false)

/-- The amended growth statement: the two most recent full years having
positive totals are compared. Written structurally (via reverse) for
comparison against the index-based growthOf. -/
def specGrowthAmended (ms : List YearlyMetrics) : ℚ × Bool :=
  match (ms.filter (fun m => !m.isOngoing && decide (0 < m.total))).reverse with
  | c :: p :: _ =>
    if 0 < p.per_week then
      let g := pyRound 1 ((c.per_week - p.per_week) / p.per_week * 100)
      (g, decide (0 < g))
    else (0, false)
  | _ => (0, false)

/-- Forward scan computing the length of the trailing consecutive run:
helper used to relate the backward walk of _compute_streaks to the
forward longest-run scan. -/
def curAux : ℤ → ℕ → List ℤ → ℕ
  | _, run, [] => run
  | prev, run, d :: rest =>
    if d - prev = 1 then curAux d (run + 1) rest else curAux d 1 rest

/-- A concrete clock: year 2025, day-of-year 100, a day number for today. -/
def wClock : Clock := ⟨2025, 100, 20300⟩

/-- A one-day year block with the given day number, count and reported
calendar total. -/
def mkBlock (day cnt rep : ℤ) : YearBlock :=
  { totalCommitContributions := cnt, totalIssueContributions := 0,
    totalPullRequestContributions := 0,
    totalPullRequestReviewContributions := 0,
    totalRepositoryContributions := 0, restrictedContributionsCount := 0,
    contributionCalendar := { totalContributions := some rep,
                              weeks := [[⟨some day, cnt⟩]] } }

/-- Cross-verification witness block: daily sum 97, reported total 100. -/
def wBlock97 : YearBlock := mkBlock 19800 97 100

/-- Cross-verification witness block: daily sum 99, reported total 100. -/
def wBlock99 : YearBlock := mkBlock 19800 99 100

/-- Leap-normalization witness block: daily sum 732, reported total 732. -/
def wBlock732 : YearBlock := mkBlock 19800 732 732

/-- Payload exercising the growth computation: account created 2020, year
2024 with 732 contributions, 2023 with zero, 2022 with 365, other years
absent. -/
def wRawGrowth : RawData :=
  { createdAt := some 2020,
    blocks := fun yr =>
      if yr = 2024 then some wBlock732
      else if yr = 2023 then some (mkBlock 19500 0 0)
      else if yr = 2022 then some (mkBlock 19100 365 365)
      else none }

/-- Payload of an account created in the current year (2025) whose five
year blocks are all absent. -/
def wRawNew : RawData := { createdAt := some 2025, blocks := fun _ => none }

/-- Evaluation rule for the half-even rounding when the value sits strictly
below the midpoint of the integer step. -/
theorem rndHalfEven_of_lt (q : ℚ) (m : ℤ) (h1 : (m : ℚ) ≤ q)
    (h2 : q < (m : ℚ) + 1/2) : rndHalfEven q = m := by
  have hf : ⌊q⌋ = m := by
    rw [Int.floor_eq_iff]
    exact ⟨h1, by linarith⟩
  simp only [rndHalfEven, hf]
  rw [if_pos (by linarith : q - (m : ℚ) < 1/2)]

/-- Evaluation rule for pyRound through an explicit scaled integer. -/
theorem pyRound_eq (nd : ℕ) (q x : ℚ) (m : ℤ) (h1 : (m : ℚ) ≤ q * (10 : ℚ) ^ nd)
    (h2 : q * (10 : ℚ) ^ nd < (m : ℚ) + 1/2) (h3 : (m : ℚ) / (10 : ℚ) ^ nd = x) :
    pyRound nd q = x := by
  simp only [pyRound]
  rw [rndHalfEven_of_lt _ m h1 h2, h3]

/-- Cross-verification outcome when the reported total is positive and the
mismatch fraction exceeds 2 percent. -/
theorem crossVerify_mismatch {cs rep : ℤ} (h0 : 0 < rep)
    (h : (2 : ℚ)/100 < |(cs : ℚ) - (rep : ℚ)| / (rep : ℚ)) :
    crossVerify cs rep = (false, cs) := by
  have h2 : (2 : ℚ) < |(cs : ℚ) - (rep : ℚ)| / (rep : ℚ) * 100 := by linarith
  simp only [crossVerify]
  rw [if_pos h0, if_pos h2]

/-- Cross-verification outcome when the reported total is positive and the
mismatch fraction is at most 2 percent. -/
theorem crossVerify_ok {cs rep : ℤ} (h0 : 0 < rep)
    (h : |(cs : ℚ) - (rep : ℚ)| / (rep : ℚ) ≤ 2/100) :
    crossVerify cs rep = (true, rep) := by
  have h2 : ¬ ((2 : ℚ) < |(cs : ℚ) - (rep : ℚ)| / (rep : ℚ) * 100) := by
    push_neg
    linarith
  simp only [crossVerify]
  rw [if_pos h0, if_neg h2]

/-- Cross-verification outcome when the reported total is not positive. -/
theorem crossVerify_nonpos {cs rep : ℤ} (h0 : ¬ 0 < rep) :
    crossVerify cs rep = (true, cs) := by
  simp only [crossVerify]
  rw [if_neg h0]

/-- C1: for a year block with data, calendar_sum is the sum of the daily
calendar counts, and the cross-verification against the reported total
behaves as specified: positive reported total with mismatch above 2
percent gives is_reliable=false and total=calendar_sum; positive reported
total with mismatch at most 2 percent gives is_reliable=true and
total=reported; reported total zero gives total=calendar_sum with
is_reliable still true. -/
theorem cross_verification_c1 (ck : Clock) (yr : ℤ) (b : YearBlock) :
    (processYearData ck yr b).calendar_sum
        = ((calendarDays b).map (fun p => p.2)).sum ∧
    (0 < reportedTotal b →
      ((2 : ℚ)/100 <
          |(calendarSum b : ℚ) - (reportedTotal b : ℚ)| / (reportedTotal b : ℚ) →
        (processYearData ck yr b).is_reliable = false ∧
        (processYearData ck yr b).total = calendarSum b) ∧
      (|(calendarSum b : ℚ) - (reportedTotal b : ℚ)| / (reportedTotal b : ℚ)
          ≤ 2/100 →
        (processYearData ck yr b).is_reliable = true ∧
        (processYearData ck yr b).total = reportedTotal b)) ∧
    (reportedTotal b = 0 →
      (processYearData ck yr b).total = calendarSum b ∧
      (processYearData ck yr b).is_reliable = true) := by
  refine ⟨by simp [processYearData, calendarSum], ?_, ?_⟩
  · intro h0
    constructor
    · intro hm
      have hv := crossVerify_mismatch h0 hm
      simp [processYearData, hv]
    · intro hm
      have hv := crossVerify_ok h0 hm
      simp [processYearData, hv]
  · intro h0
    have hv := @crossVerify_nonpos (calendarSum b) (reportedTotal b) (by omega)
    simp [processYearData, hv]

/-- Witness for C1: reported=100 with calendar_sum=97 gives
is_reliable=false and total=97; reported=100 with calendar_sum=99 gives
is_reliable=true and total=100. -/
theorem cross_verification_c1_witness :
    (processYearData wClock 2024 wBlock97).is_reliable = false ∧
    (processYearData wClock 2024 wBlock97).total = 97 ∧
    (processYearData wClock 2024 wBlock99).is_reliable = true ∧
    (processYearData wClock 2024 wBlock99).total = 100 := by
  have hcs97 : calendarSum wBlock97 = 97 := by decide
  have hrep97 : reportedTotal wBlock97 = 100 := by decide
  have hcs99 : calendarSum wBlock99 = 99 := by decide
  have hrep99 : reportedTotal wBlock99 = 100 := by decide
  have h97 := (cross_verification_c1 wClock 2024 wBlock97).2.1
  have h99 := (cross_verification_c1 wClock 2024 wBlock99).2.1
  rw [hcs97, hrep97] at h97
  rw [hcs99, hrep99] at h99
  obtain ⟨ha, hb⟩ := (h97 (by norm_num)).1 (by norm_num)
  obtain ⟨hc, hd⟩ := (h99 (by norm_num)).2 (by norm_num)
  exact ⟨ha, hb, hc, hd⟩

/-- C7: for a completed (non-current) year the reconciled total is divided
by 12 for per_month and by daysInYear/7 for per_week, both rounded to 2
decimals, where daysInYear follows the Gregorian leap rule; 2024 is a
leap year (366 days) and 2023 is not (365 days). -/
theorem leap_normalization_c7 (ck : Clock) (yr : ℤ) (b : YearBlock)
    (h : yr ≠ ck.currentYear) :
    (processYearData ck yr b).per_month
        = pyRound 2 (((processYearData ck yr b).total : ℚ) / 12) ∧
    (processYearData ck yr b).per_week
        = pyRound 2 (((processYearData ck yr b).total : ℚ)
            / ((daysInYear yr : ℚ) / 7)) ∧
    (daysInYear yr
        = if yr % 4 = 0 ∧ (yr % 100 ≠ 0 ∨ yr % 400 = 0) then 366 else 365) ∧
    daysInYear 2024 = 366 ∧ daysInYear 2023 = 365 := by
  have hd : (decide (yr = ck.currentYear)) = false := by simp [h]
  refine ⟨?_, ?_, ?_, by decide, by decide⟩
  · simp [processYearData, hd]
  · simp [processYearData, hd]
  · simp only [daysInYear, isLeap]
    by_cases h4 : yr % 4 = 0 <;> by_cases h100 : yr % 100 = 0 <;>
      by_cases h400 : yr % 400 = 0 <;> simp [h4, h100, h400]

/-- Witness for C7: year 2024 with reconciled total 732 yields per_week 14,
the divisor being 366/7. -/
theorem leap_normalization_c7_witness :
    (processYearData wClock 2024 wBlock732).per_week = 14 := by
  have h := leap_normalization_c7 wClock 2024 wBlock732 (by decide)
  rw [h.2.1]
  have hcs : calendarSum wBlock732 = 732 := by decide
  have hrep : reportedTotal wBlock732 = 732 := by decide
  have ht : (processYearData wClock 2024 wBlock732).total = 732 := by
    have hcv : crossVerify 732 732 = (true, 732) :=
      crossVerify_ok (by norm_num) (by norm_num)
    simp [processYearData, hcs, hrep, hcv]
  rw [ht, h.2.2.2.1]
  exact pyRound_eq 2 _ 14 1400 (by norm_num) (by norm_num) (by norm_num)

/-- C8: the year-to-date elapsed months max(day_of_year/30.44, 1) and
elapsed weeks max(day_of_year/7, 1) are monotone in day_of_year and never
below 1, and the in-progress year divides its total by exactly these
values. -/
theorem ytd_elapsed_c8 :
    (∀ d dd : ℕ, d ≤ dd →
      elapsedMonthsYtd d ≤ elapsedMonthsYtd dd ∧
      elapsedWeeksYtd d ≤ elapsedWeeksYtd dd) ∧
    (∀ d : ℕ, 1 ≤ elapsedMonthsYtd d ∧ 1 ≤ elapsedWeeksYtd d) ∧
    (∀ (ck : Clock) (yr : ℤ) (b : YearBlock), yr = ck.currentYear →
      (processYearData ck yr b).per_month
          = pyRound 2 (((processYearData ck yr b).total : ℚ)
              / elapsedMonthsYtd ck.dayOfYear) ∧
      (processYearData ck yr b).per_week
          = pyRound 2 (((processYearData ck yr b).total : ℚ)
              / elapsedWeeksYtd ck.dayOfYear)) := by
  refine ⟨?_, ?_, ?_⟩
  · intro d dd hdd
    have hc : (d : ℚ) ≤ (dd : ℚ) := by exact_mod_cast hdd
    constructor
    · exact max_le_max (by gcongr) le_rfl
    · exact max_le_max (by gcongr) le_rfl
  · intro d
    exact ⟨le_max_right _ 1, le_max_right _ 1⟩
  · intro ck yr b h
    have hd : (decide (yr = ck.currentYear)) = true := by simp [h]
    constructor <;> simp [processYearData, hd]

/-- Witness for C8: monotonicity at 1 ≤ 400, the lower bound at day 1, and
the in-progress division at the concrete clock. -/
theorem ytd_elapsed_c8_witness :
    elapsedMonthsYtd 1 ≤ elapsedMonthsYtd 400 ∧ 1 ≤ elapsedWeeksYtd 1 ∧
    (processYearData wClock 2025 wBlock732).per_week
      = pyRound 2 (((processYearData wClock 2025 wBlock732).total : ℚ)
          / elapsedWeeksYtd wClock.dayOfYear) := by
  exact ⟨(ytd_elapsed_c8.1 1 400 (by norm_num)).1,
    (ytd_elapsed_c8.2.1 1).2,
    (ytd_elapsed_c8.2.2 wClock 2025 wBlock732 (by decide)).2⟩

/-- C4 counterexample: the trend-signal lookup of the recency & momentum
factor awards 7.5 points for insufficient_data, not 9 as claimed. -/
theorem trend_lookup_c4_counterexample :
    trendPointsMap "insufficient_data" ≠ 9 := by
  rw [show trendPointsMap "insufficient_data" = 15/2 from rfl]
  norm_num

/-- C4 amended: the lookup awards strong_growth 15, growth 12, stable 9,
decline 5, strong_decline 2, and insufficient_data 7.5 (also the default
for a missing overview or an unknown signal), and the trailing-12-month
volume component is capped at 10 points. -/
theorem trend_lookup_c4_amended :
    trendPointsMap "strong_growth" = 15 ∧ trendPointsMap "growth" = 12 ∧
    trendPointsMap "stable" = 9 ∧ trendPointsMap "decline" = 5 ∧
    trendPointsMap "strong_decline" = 2 ∧
    trendPointsMap "insufficient_data" = 15/2 ∧
    (∀ ov : ActivityOverviewL,
      trendPoints (some ov) = trendPointsMap ov.trend_signal) ∧
    trendPoints none = 15/2 ∧
    (∀ n : ℤ, recencyVolume n ≤ 10) ∧
    (∀ cd : ContributionDataL,
      momentumScore cd = recencyVolume cd.last_12_months_contributions
        + trendPoints cd.activity_overview) := by
  exact ⟨rfl, rfl, rfl, rfl, rfl, rfl,
    fun ov => rfl, rfl, fun n => min_le_right _ _, fun cd => rfl⟩

/-- C5 counterexample: a 403 with Retry-After consumes one of the 3
attempts. With two transient network failures followed by a success the
executor succeeds, but prepending a single rate-limited 403 makes the
same run exhaust the budget and raise instead of reaching the success. -/
theorem rate_limit_budget_c5_counterexample :
    (graphqlQuery true [.netError, .netError,
        .resp ⟨200, none, none, ⟨none⟩⟩]).1 = .ok ⟨none⟩ ∧
    (graphqlQuery true [.resp ⟨403, some 1, none, ⟨none⟩⟩, .netError,
        .netError, .resp ⟨200, none, none, ⟨none⟩⟩]).1
      = .error .networkError := by
  constructor <;> norm_num [graphqlQuery, gqlLoop]

/-- C5 amended: a 403 with Retry-After sleeps min(Retry-After, 60s) and
retries without changing the backoff, but the retry consumes one unit of
the same 3-attempt budget, which raises when it reaches zero; concretely
a Retry-After of 120 sleeps 60 seconds and the retried attempt succeeds. -/
theorem rate_limit_budget_c5_amended :
    (∀ (ra : ℚ) (er : Option (List String)) (da : GqlData)
        (rest : List NetEvent) (n : ℕ) (b : ℚ) (e : Option PyExc)
        (sl : List ℚ),
      gqlLoop (.resp ⟨403, some ra, er, da⟩ :: rest) (n + 1) b e sl
        = gqlLoop rest n b e (sl ++ [min ra 60])) ∧
    (∀ (evs : List NetEvent) (b : ℚ) (e : Option PyExc) (sl : List ℚ),
      gqlLoop evs 0 b e sl
        = (.error (e.getD (.runtimeError "GraphQL query failed after retries")),
           sl)) ∧
    graphqlQuery true [.resp ⟨403, some 120, none, ⟨none⟩⟩,
        .resp ⟨200, none, none, ⟨none⟩⟩] = (.ok ⟨none⟩, [60]) := by
  refine ⟨?_, ?_, ?_⟩
  · intro ra er da rest n b e sl
    simp [gqlLoop]
  · intro evs b e sl
    cases evs with
    | nil => rfl
    | cons h t => cases h <;> rfl
  · norm_num [graphqlQuery, gqlLoop, min_def]

/-- C6 counterexample: the missing-credential failure is a plain ValueError
carrying a message, the same exception class raised for GraphQL-level
query errors, so it is not a distinct typed ConfigurationError. -/
theorem config_error_c6_counterexample :
    (graphqlQuery false []).1
        = .error (.valueError "GITHUB_TOKEN is required for the GraphQL API") ∧
    (graphqlQuery true [.resp ⟨200, none, some ["Bad query"], ⟨none⟩⟩]).1
        = .error (.valueError "GraphQL errors: Bad query") ∧
    pyType (.valueError "GITHUB_TOKEN is required for the GraphQL API")
        = pyType (.valueError "GraphQL errors: Bad query") := by
  refine ⟨rfl, ?_, rfl⟩
  norm_num [graphqlQuery, gqlLoop]
  rfl

/-- C6 amended: an absent bearer credential makes the executor fail with a
generic ValueError (no distinct ConfigurationError type exists in the
code), the contribution fetcher returns no data on a cache miss, and the
scorer then dispatches to the REST fallback, which is a total function
(the overall analysis does not raise). -/
theorem config_error_c6_amended :
    (∀ evs, graphqlQuery false evs
        = (.error (.valueError "GITHUB_TOKEN is required for the GraphQL API"),
           [])) ∧
    (∀ evs, fetchContributionData none false evs = none) ∧
    (∀ (ca : CommitActivityL) (age : ℚ),
      calculateActivityScore none ca age = activityScoreFromRest ca age) :=
  ⟨fun _ => rfl, fun _ => rfl, fun _ _ => rfl⟩

/-- Evaluation rule for the half-even rounding when the value sits strictly
above the midpoint of the integer step. -/
theorem rndHalfEven_of_gt (q : ℚ) (m : ℤ) (h1 : (m : ℚ) - 1/2 < q)
    (h2 : q < (m : ℚ)) : rndHalfEven q = m := by
  have hf : ⌊q⌋ = m - 1 := by
    rw [Int.floor_eq_iff]
    push_cast
    constructor <;> linarith
  simp only [rndHalfEven, hf]
  rw [if_neg (by push_cast; linarith), if_pos (by push_cast; linarith)]
  omega

/-- Evaluation rule for pyRound when the scaled value rounds up. -/
theorem pyRound_eq_up (nd : ℕ) (q x : ℚ) (m : ℤ)
    (h1 : (m : ℚ) - 1/2 < q * (10 : ℚ) ^ nd)
    (h2 : q * (10 : ℚ) ^ nd < (m : ℚ)) (h3 : (m : ℚ) / (10 : ℚ) ^ nd = x) :
    pyRound nd q = x := by
  simp only [pyRound]
  rw [rndHalfEven_of_gt _ m h1 h2, h3]

/-- Evaluation of the 2022 witness year block: total 365, per_week exactly
7, per_month 365/12 rounded to 30.42. -/
theorem wEval22 : processYearData wClock 2022 (mkBlock 19100 365 365)
    = ⟨2022, 365, 1521/50, 7, 1, 365, false, true, 365, 365⟩ := by
  have hcs : calendarSum (mkBlock 19100 365 365) = 365 := by decide
  have hadc : activeDayCount (mkBlock 19100 365 365) = 1 := by decide
  have hrep : reportedTotal (mkBlock 19100 365 365) = 365 := by decide
  have hcv : crossVerify 365 365 = (true, 365) :=
    crossVerify_ok (by norm_num) (by norm_num)
  have hdy : daysInYear 2022 = 365 := by decide
  have hpm : pyRound 2 ((365 : ℚ)/12) = 1521/50 :=
    pyRound_eq_up 2 _ _ 3042 (by norm_num) (by norm_num) (by norm_num)
  have hpw : pyRound 2 ((365 : ℚ)/((365 : ℚ)/7)) = 7 :=
    pyRound_eq 2 _ _ 700 (by norm_num) (by norm_num) (by norm_num)
  have hadr : pyRound 2 ((365 : ℚ)/1) = 365 :=
    pyRound_eq 2 _ _ 36500 (by norm_num) (by norm_num) (by norm_num)
  have hng : (decide ((2022 : ℤ) = wClock.currentYear)) = false := by decide
  have hb : (mkBlock 19100 365 365).totalCommitContributions = 365 := rfl
  have hpw7 : pyRound 2 (7 : ℚ) = 7 :=
    pyRound_eq 2 _ _ 700 (by norm_num) (by norm_num) (by norm_num)
  have hadr365 : pyRound 2 (365 : ℚ) = 365 :=
    pyRound_eq 2 _ _ 36500 (by norm_num) (by norm_num) (by norm_num)
  simp [processYearData, hcs, hadc, hrep, hcv, hdy, hng, hb, hpm, hpw, hadr,
    hpw7, hadr365]

/-- Evaluation of the 2023 witness year block: everything zero. -/
theorem wEval23 : processYearData wClock 2023 (mkBlock 19500 0 0)
    = ⟨2023, 0, 0, 0, 0, 0, false, true, 0, 0⟩ := by
  have hcs : calendarSum (mkBlock 19500 0 0) = 0 := by decide
  have hadc : activeDayCount (mkBlock 19500 0 0) = 0 := by decide
  have hrep : reportedTotal (mkBlock 19500 0 0) = 0 := by decide
  have hcv : crossVerify 0 0 = (true, 0) := crossVerify_nonpos (by norm_num)
  have hdy : daysInYear 2023 = 365 := by decide
  have hz : ∀ y : ℚ, pyRound 2 ((0 : ℚ) / y) = 0 := by
    intro y
    exact pyRound_eq 2 _ _ 0 (by norm_num) (by norm_num) (by norm_num)
  have hng : (decide ((2023 : ℤ) = wClock.currentYear)) = false := by decide
  have hb : (mkBlock 19500 0 0).totalCommitContributions = 0 := rfl
  have hz0 : pyRound 2 (0 : ℚ) = 0 :=
    pyRound_eq 2 _ _ 0 (by norm_num) (by norm_num) (by norm_num)
  simp [processYearData, hcs, hadc, hrep, hcv, hdy, hng, hb, hz, hz0]

/-- Evaluation of the 2024 witness year block: total 732, per_week exactly
14 (leap-year divisor 366/7), per_month exactly 61. -/
theorem wEval24 : processYearData wClock 2024 wBlock732
    = ⟨2024, 732, 61, 14, 1, 732, false, true, 732, 732⟩ := by
  have hcs : calendarSum wBlock732 = 732 := by decide
  have hadc : activeDayCount wBlock732 = 1 := by decide
  have hrep : reportedTotal wBlock732 = 732 := by decide
  have hcv : crossVerify 732 732 = (true, 732) :=
    crossVerify_ok (by norm_num) (by norm_num)
  have hdy : daysInYear 2024 = 366 := by decide
  have hpm : pyRound 2 ((732 : ℚ)/12) = 61 :=
    pyRound_eq 2 _ _ 6100 (by norm_num) (by norm_num) (by norm_num)
  have hpw : pyRound 2 ((732 : ℚ)/((366 : ℚ)/7)) = 14 :=
    pyRound_eq 2 _ _ 1400 (by norm_num) (by norm_num) (by norm_num)
  have hadr : pyRound 2 ((732 : ℚ)/1) = 732 :=
    pyRound_eq 2 _ _ 73200 (by norm_num) (by norm_num) (by norm_num)
  have hng : (decide ((2024 : ℤ) = wClock.currentYear)) = false := by decide
  have hb : wBlock732.totalCommitContributions = 732 := rfl
  have h732 : pyRound 2 (732 : ℚ) = 732 :=
    pyRound_eq 2 _ _ 73200 (by norm_num) (by norm_num) (by norm_num)
  simp [processYearData, hcs, hadc, hrep, hcv, hdy, hng, hb, hpm, hpw, hadr,
    h732]

/-- Evaluation of the whole metric list of the growth witness payload. -/
theorem wMetricsGrowth : yearlyMetricsOf wClock wRawGrowth
    = [⟨2021, 0, 0, 0, 0, 0, false, true, 0, 0⟩,
       ⟨2022, 365, 1521/50, 7, 1, 365, false, true, 365, 365⟩,
       ⟨2023, 0, 0, 0, 0, 0, false, true, 0, 0⟩,
       ⟨2024, 732, 61, 14, 1, 732, false, true, 732, 732⟩,
       ⟨2025, 0, 0, 0, 0, 0, true, true, 0, 0⟩] := by
  have hreq : requestedYears wClock = [2025, 2024, 2023, 2022, 2021] := by
    decide
  have hd25 : (decide ((2025 : ℤ) = wClock.currentYear)) = true := by decide
  have hd21 : (decide ((2021 : ℤ) = wClock.currentYear)) = false := by decide
  have he25 : entryFor wClock wRawGrowth 2025
      = some ⟨2025, 0, 0, 0, 0, 0, true, true, 0, 0⟩ := by
    norm_num [entryFor, wRawGrowth, zeroYearMetrics, hd25]
  have he24 : entryFor wClock wRawGrowth 2024
      = some ⟨2024, 732, 61, 14, 1, 732, false, true, 732, 732⟩ := by
    norm_num [entryFor, wRawGrowth]
    exact wEval24
  have he23 : entryFor wClock wRawGrowth 2023
      = some ⟨2023, 0, 0, 0, 0, 0, false, true, 0, 0⟩ := by
    norm_num [entryFor, wRawGrowth]
    exact wEval23
  have he22 : entryFor wClock wRawGrowth 2022
      = some ⟨2022, 365, 1521/50, 7, 1, 365, false, true, 365, 365⟩ := by
    norm_num [entryFor, wRawGrowth]
    exact wEval22
  have he21 : entryFor wClock wRawGrowth 2021
      = some ⟨2021, 0, 0, 0, 0, 0, false, true, 0, 0⟩ := by
    norm_num [entryFor, wRawGrowth, zeroYearMetrics, hd21]
  have hfm : (requestedYears wClock).filterMap (entryFor wClock wRawGrowth)
      = [⟨2025, 0, 0, 0, 0, 0, true, true, 0, 0⟩,
         ⟨2024, 732, 61, 14, 1, 732, false, true, 732, 732⟩,
         ⟨2023, 0, 0, 0, 0, 0, false, true, 0, 0⟩,
         ⟨2022, 365, 1521/50, 7, 1, 365, false, true, 365, 365⟩,
         ⟨2021, 0, 0, 0, 0, 0, false, true, 0, 0⟩] := by
    rw [hreq]
    simp [List.filterMap_cons, he25, he24, he23, he22, he21]
  simp only [yearlyMetricsOf, hfm]
  norm_num [List.insertionSort, List.orderedInsert, yearLE]

/-- C3 counterexample: on the growth witness payload the full (non-partial)
years are 2021-2024 with per_week values 0, 7, 0, 14; the two most recent
full years are 2024 and 2023 and the earlier of them has per_week 0, so
the claim requires growth_rate 0, but the code skips the zero-total year
2023 and compares 2024 against 2022, returning growth_rate 100 with
is_trending_up true. specGrowthClaim is the claim-as-worded computation. -/
theorem growth_rate_c3_counterexample :
    growthOf (yearlyMetricsOf wClock wRawGrowth) = (100, true) ∧
    specGrowthClaim (yearlyMetricsOf wClock wRawGrowth) = (0, false) := by
  rw [wMetricsGrowth]
  have hg : pyRound 1 (100 : ℚ) = 100 :=
    pyRound_eq 1 _ _ 1000 (by norm_num) (by norm_num) (by norm_num)
  constructor
  · norm_num [growthOf, hg]
  · norm_num [specGrowthClaim]

/-- C3 amended: growth_rate compares the per_week values of the two most
recent full years with positive totals, is 0 unless there are at least two
such years and the earlier one's per_week is positive, and is_trending_up
holds exactly when growth_rate is positive. -/
theorem growth_rate_c3_amended (ms : List YearlyMetrics) :
    growthOf ms = specGrowthAmended ms ∧
    ((growthOf ms).2 = true ↔ 0 < (growthOf ms).1) := by
  have main : growthOf ms = specGrowthAmended ms := by
    set fy := ms.filter (fun m => !m.isOngoing && decide (0 < m.total)) with hfy
    rcases hrev : fy.reverse with _ | ⟨c, _ | ⟨p, t2⟩⟩
    · have h0 : fy = [] := by
        have h := congrArg List.reverse hrev
        simpa using h
      simp [growthOf, specGrowthAmended, ← hfy, h0, hrev]
    · have h1 : fy = [c] := by
        have h := congrArg List.reverse hrev
        simpa using h
      simp [growthOf, specGrowthAmended, ← hfy, h1, hrev]
    · have h2 : fy = (t2.reverse ++ [p]) ++ [c] := by
        have h := congrArg List.reverse hrev
        simpa using h
      have hlen : fy.length = t2.length + 2 := by
        rw [h2]
        simp
      have hp : fy.getD (t2.length) default = p := by
        rw [h2, List.getD_append _ _ _ _ (by simp),
          List.getD_append_right _ _ _ _ (by simp)]
        simp
      have hc : fy.getD (t2.length + 1) default = c := by
        rw [h2, List.getD_append_right _ _ _ _ (by simp)]
        simp
      simp only [growthOf, specGrowthAmended, ← hfy, hrev, hlen]
      rw [if_pos (by omega)]
      have e1 : t2.length + 2 - 2 = t2.length := by omega
      have e2 : t2.length + 2 - 1 = t2.length + 1 := by omega
      rw [e1, e2, hp, hc]
  refine ⟨main, ?_⟩
  rw [main]
  simp only [specGrowthAmended]
  generalize (ms.filter (fun m => !m.isOngoing && decide (0 < m.total))).reverse
    = r
  rcases r with _ | ⟨c, _ | ⟨p, t2⟩⟩
  · simp
  · simp
  · by_cases hp : 0 < p.per_week
    · simp [hp]
    · simp [hp]

/-- The trailing forward run never exceeds the result of the longest-run
scan, given the invariants the scan maintains. -/
theorem curAux_le_scanLongest :
    ∀ (rest : List ℤ) (prev : ℤ) (run longest : ℕ), 1 ≤ longest →
      run ≤ longest → curAux prev run rest ≤ scanLongest prev run longest rest := by
  intro rest
  induction rest with
  | nil =>
    intro prev run longest h1 h2
    simpa [curAux, scanLongest] using h2
  | cons d t ih =>
    intro prev run longest h1 h2
    simp only [curAux, scanLongest]
    by_cases hd : d - prev = 1
    · rw [if_pos hd, if_pos hd]
      exact ih d (run + 1) (max longest (run + 1))
        (le_trans h1 (le_max_left _ _)) (le_max_right _ _)
    · rw [if_neg hd, if_neg hd]
      exact ih d 1 longest h1 h1

/-- The getLast? of a cons list in getLastD form. -/
theorem getLastQ (l : List ℤ) (a : ℤ) :
    (a :: l).getLast? = some (l.getLastD a) := by
  induction l generalizing a with
  | nil => rfl
  | cons b t ih => rw [List.getLast?_cons_cons, ih, List.getLastD_cons]

/-- Appending one date to the scanned list either extends the trailing run
by one (when consecutive with the previous last date) or resets it to 1. -/
theorem curAux_append :
    ∀ (l : List ℤ) (prev : ℤ) (run : ℕ) (y : ℤ),
      curAux prev run (l ++ [y])
        = if y - l.getLastD prev = 1 then curAux prev run l + 1 else 1 := by
  intro l
  induction l with
  | nil =>
    intro prev run y
    by_cases hy : y - prev = 1 <;> simp [curAux, List.getLastD, hy]
  | cons a t ih =>
    intro prev run y
    have hgl : (a :: t).getLast?.getD prev = t.getLast?.getD a := by
      rw [getLastQ, Option.getD_some, List.getLastD_eq_getLast?]
    by_cases ha : a - prev = 1 <;>
      simp [curAux, List.getLastD_cons, ha, ih, hgl]

/-- The backward walk of _compute_streaks over the reversed date list
computes exactly the trailing forward run. -/
theorem goBack_reverse (l : List ℤ) (d0 : ℤ) :
    goBack ((d0 :: l).reverse) = curAux d0 1 l := by
  induction l using List.reverseRecOn with
  | nil => rfl
  | append_singleton l' y ih =>
    rw [show d0 :: (l' ++ [y]) = (d0 :: l') ++ [y] from by simp,
      List.reverse_append]
    rcases hrev : (d0 :: l').reverse with _ | ⟨hh, tt⟩
    · exact absurd (congrArg List.length hrev) (by simp)
    · have hh1 : hh = l'.getLastD d0 := by
        have h1 := List.head?_reverse (d0 :: l')
        rw [hrev, getLastQ] at h1
        exact Option.some_inj.mp h1
      rw [hrev] at ih
      simp only [List.reverse_cons, List.reverse_nil, List.nil_append,
        List.cons_append, List.singleton_append]
      rw [show goBack (y :: hh :: tt)
            = if y - hh = 1 then 1 + goBack (hh :: tt) else 1 from rfl,
        curAux_append, ih, hh1]
      by_cases hy : y - l'.getLastD d0 = 1 <;> simp [hy, Nat.add_comm]

/-- C10: the streak computation returns a pair (longest_streak,
current_streak) with 0 ≤ current_streak ≤ longest_streak: the backward
walk from the most recent active date never reports a run longer than the
longest consecutive-day run. -/
theorem streaks_c10 (days : List (ℤ × ℤ)) (today : ℤ) :
    0 ≤ (computeStreaks days today).2 ∧
    (computeStreaks days today).2 ≤ (computeStreaks days today).1 := by
  refine ⟨Nat.zero_le _, ?_⟩
  rcases h : activeDates days with _ | ⟨d0, tl⟩
  · simp [computeStreaks, h]
  · simp only [computeStreaks, h]
    by_cases hla : tl.getLastD d0 = today ∨ tl.getLastD d0 = today - 1
    · rw [if_pos hla]
      simp only [goBack_reverse]
      exact curAux_le_scanLongest tl d0 1 1 le_rfl le_rfl
    · rw [if_neg hla]
      simp

/-- Every record produced by the per-year loop carries the year it was
produced for, and its partial flag states whether that year is current. -/
theorem entryFor_year {ck : Clock} {raw : RawData} {y : ℤ} {m : YearlyMetrics}
    (h : entryFor ck raw y = some m) :
    m.year = y ∧ m.isOngoing = decide (y = ck.currentYear) := by
  rcases hb : raw.blocks y with _ | b
  · rcases hc : raw.createdAt with _ | cy0
    · simp only [entryFor, hb, hc, Option.some_inj] at h
      subst h
      simp [zeroYearMetrics]
    · simp only [entryFor, hb, hc] at h
      by_cases hlt : y < cy0
      · rw [if_pos hlt] at h
        cases h
      · rw [if_neg hlt, Option.some_inj] at h
        subst h
        simp [zeroYearMetrics]
  · simp only [entryFor, hb, Option.some_inj] at h
    subst h
    simp [processYearData]

/-- The five requested years are pairwise distinct. -/
theorem requestedYears_pairwise (ck : Clock) :
    (requestedYears ck).Pairwise (· ≠ ·) := by
  simp only [requestedYears, List.pairwise_cons, List.mem_cons,
    List.mem_singleton, List.not_mem_nil, List.Pairwise.nil]
  refine ⟨?_, ?_, ?_, ?_, ?_, trivial⟩ <;>
    exact fun a h => by
      rcases h with h | h | h | h | h <;>
        first
          | omega
          | exact h.elim

/-- C9: the yearly_metrics list is strictly ascending in year (hence has no
duplicate years), has at most 5 entries, every entry's year lies in
[current_year - 4, current_year], and an entry is partial exactly when its
year is the current year. -/
theorem metrics_invariants_c9 (ck : Clock) (raw : RawData) :
    (yearlyMetricsOf ck raw).Pairwise (fun a b => a.year < b.year) ∧
    (yearlyMetricsOf ck raw).length ≤ 5 ∧
    ∀ m ∈ yearlyMetricsOf ck raw,
      ck.currentYear - 4 ≤ m.year ∧ m.year ≤ ck.currentYear ∧
      (m.isOngoing = true ↔ m.year = ck.currentYear) := by
  have hperm : (yearlyMetricsOf ck raw).Perm
      ((requestedYears ck).filterMap (entryFor ck raw)) :=
    List.perm_insertionSort _ _
  have hsorted : (yearlyMetricsOf ck raw).Sorted yearLE :=
    List.sorted_insertionSort yearLE _
  have hne : ((requestedYears ck).filterMap (entryFor ck raw)).Pairwise
      (fun a b => a.year ≠ b.year) := by
    rw [List.pairwise_filterMap]
    refine (requestedYears_pairwise ck).imp ?_
    intro y z hyz a ha b hb
    rw [Option.mem_def] at ha hb
    rw [(entryFor_year ha).1, (entryFor_year hb).1]
    exact hyz
  have hneL : (yearlyMetricsOf ck raw).Pairwise (fun a b => a.year ≠ b.year) :=
    (hperm.pairwise_iff (fun h => h.symm)).mpr hne
  refine ⟨?_, ?_, ?_⟩
  · exact (hsorted.and hneL).imp (fun h => lt_of_le_of_ne h.1 h.2)
  · rw [hperm.length_eq]
    calc ((requestedYears ck).filterMap (entryFor ck raw)).length
        ≤ (requestedYears ck).length := List.length_filterMap_le _ _
      _ = 5 := by simp [requestedYears]
  · intro m hm
    obtain ⟨y, hy, hfy⟩ := List.mem_filterMap.mp (hperm.mem_iff.mp hm)
    obtain ⟨hyear, hpart⟩ := entryFor_year hfy
    have hyr : y = ck.currentYear ∨ y = ck.currentYear - 1 ∨
        y = ck.currentYear - 2 ∨ y = ck.currentYear - 3 ∨
        y = ck.currentYear - 4 := by
      simpa [requestedYears] using hy
    have hb1 : ck.currentYear - 4 ≤ y ∧ y ≤ ck.currentYear := by
      rcases hyr with h | h | h | h | h <;> omega
    refine ⟨by omega, by omega, ?_⟩
    rw [hpart, hyear]
    simp

/-- Witness for C9 at the concrete growth payload: the metric list is
strictly ascending and its 2024 entry is within bounds with the partial
flag off. -/
theorem metrics_invariants_c9_witness :
    ((yearlyMetricsOf wClock wRawGrowth).Pairwise fun a b => a.year < b.year) ∧
    (2021 : ℤ) ≤ 2024 ∧ (2024 : ℤ) ≤ wClock.currentYear ∧
    ((⟨2024, 732, 61, 14, 1, 732, false, true, 732, 732⟩ : YearlyMetrics).year
      ≤ wClock.currentYear) := by
  have h := metrics_invariants_c9 wClock wRawGrowth
  have hmem : (⟨2024, 732, 61, 14, 1, 732, false, true, 732, 732⟩ :
      YearlyMetrics) ∈ yearlyMetricsOf wClock wRawGrowth := by
    rw [wMetricsGrowth]
    simp
  refine ⟨h.1, by norm_num, ?_, ?_⟩
  · exact le_trans (h.2.2 _ hmem).2.1 le_rfl
  · exact (h.2.2 _ hmem).2.1

/-- No record produced from years all different from y carries year y. -/
theorem countP_year_zero (ck : Clock) (raw : RawData) (t : List ℤ) (y : ℤ)
    (h : ∀ z ∈ t, z ≠ y) :
    ((t.filterMap (entryFor ck raw)).countP (fun m => m.year == y)) = 0 := by
  induction t with
  | nil => rfl
  | cons a s ih =>
    have ha : a ≠ y := h a (by simp)
    have hs : ∀ z ∈ s, z ≠ y := fun z hz => h z (by simp [hz])
    rcases he : entryFor ck raw a with _ | m
    · simp [List.filterMap_cons, he, ih hs]
    · have hy : m.year = a := (entryFor_year he).1
      simp [List.filterMap_cons, he, List.countP_cons, ih hs, hy, ha]

/-- Over pairwise-distinct years, a year y that yields a record contributes
exactly one entry with year y. -/
theorem countP_year_one (ck : Clock) (raw : RawData) (l : List ℤ)
    (hl : l.Pairwise (· ≠ ·)) (y : ℤ) (hy : y ∈ l)
    (hsome : (entryFor ck raw y).isSome) :
    ((l.filterMap (entryFor ck raw)).countP (fun m => m.year == y)) = 1 := by
  induction l with
  | nil => cases hy
  | cons a s ih =>
    obtain ⟨ha, hs⟩ := List.pairwise_cons.mp hl
    rcases List.mem_cons.mp hy with rfl | hys
    · obtain ⟨m, hm⟩ := Option.isSome_iff_exists.mp hsome
      have hy1 : m.year = y := (entryFor_year hm).1
      have hz := countP_year_zero ck raw s y (fun z hz => Ne.symm (ha z hz))
      simp [List.filterMap_cons, hm, List.countP_cons, hz, hy1]
    · have hay : a ≠ y := ha y hys
      rcases he : entryFor ck raw a with _ | m
      · simp [List.filterMap_cons, he, ih hs hys]
      · have hy1 : m.year = a := (entryFor_year he).1
        simp [List.filterMap_cons, he, List.countP_cons, ih hs hys, hy1, hay]

/-- A requested year at or after the account-creation year always yields a
record, whether or not its block is present. -/
theorem entryFor_isSome_of_not_lt (ck : Clock) (raw : RawData) (y cy0 : ℤ)
    (hc : raw.createdAt = some cy0) (hge : ¬ y < cy0) :
    (entryFor ck raw y).isSome := by
  rcases hb : raw.blocks y with _ | b <;> simp [entryFor, hb, hc, hge]

/-- C2: for a requested year with an absent data block, a year before the
account-creation year leaves no entry with that year, while any other year
gets the explicit zero record (total 0, reliable, partial iff current);
each requested year at or after the creation year has exactly one entry;
and an account created in the current year whose earlier blocks are absent
produces fewer than 5 entries. -/
theorem absent_years_c2 (ck : Clock) (raw : RawData) (cy0 : ℤ)
    (hc : raw.createdAt = some cy0) :
    (∀ yr ∈ requestedYears ck, raw.blocks yr = none →
      ((yr < cy0 → ∀ m ∈ yearlyMetricsOf ck raw, m.year ≠ yr) ∧
       (¬ yr < cy0 →
         zeroYearMetrics ck yr ∈ yearlyMetricsOf ck raw ∧
         (zeroYearMetrics ck yr).total = 0 ∧
         (zeroYearMetrics ck yr).is_reliable = true ∧
         ((zeroYearMetrics ck yr).isOngoing = true ↔ yr = ck.currentYear)))) ∧
    (∀ yr ∈ requestedYears ck, ¬ yr < cy0 →
      ((yearlyMetricsOf ck raw).countP (fun m => m.year == yr)) = 1) ∧
    (cy0 = ck.currentYear →
      (∀ yr, yr ≠ ck.currentYear → raw.blocks yr = none) →
      (yearlyMetricsOf ck raw).length < 5) := by
  have hperm : (yearlyMetricsOf ck raw).Perm
      ((requestedYears ck).filterMap (entryFor ck raw)) :=
    List.perm_insertionSort _ _
  refine ⟨?_, ?_, ?_⟩
  · intro yr hyr hnone
    constructor
    · intro hlt m hm
      obtain ⟨y, hy, hfy⟩ := List.mem_filterMap.mp (hperm.mem_iff.mp hm)
      have hyy : m.year = y := (entryFor_year hfy).1
      intro hmy
      rw [hyy] at hmy
      rw [hmy] at hfy
      have hn : entryFor ck raw yr = none := by
        simp [entryFor, hnone, hc, hlt]
      rw [hn] at hfy
      cases hfy
    · intro hge
      refine ⟨?_, rfl, rfl, by simp [zeroYearMetrics]⟩
      apply hperm.mem_iff.mpr
      apply List.mem_filterMap.mpr
      exact ⟨yr, hyr, by simp [entryFor, hnone, hc, hge]⟩
  · intro yr hyr hge
    rw [hperm.countP_eq]
    exact countP_year_one ck raw _ (requestedYears_pairwise ck) yr hyr
      (entryFor_isSome_of_not_lt ck raw yr cy0 hc hge)
  · intro hcy hall
    subst hcy
    rw [hperm.length_eq]
    have h1 : entryFor ck raw (ck.currentYear - 1) = none := by
      simp only [entryFor, hall _ (by omega : ck.currentYear - 1 ≠ _), hc]
      rw [if_pos (by omega)]
    have h2 : entryFor ck raw (ck.currentYear - 2) = none := by
      simp only [entryFor, hall _ (by omega : ck.currentYear - 2 ≠ _), hc]
      rw [if_pos (by omega)]
    have h3 : entryFor ck raw (ck.currentYear - 3) = none := by
      simp only [entryFor, hall _ (by omega : ck.currentYear - 3 ≠ _), hc]
      rw [if_pos (by omega)]
    have h4 : entryFor ck raw (ck.currentYear - 4) = none := by
      simp only [entryFor, hall _ (by omega : ck.currentYear - 4 ≠ _), hc]
      rw [if_pos (by omega)]
    rcases he : entryFor ck raw ck.currentYear with _ | m <;>
      simp [requestedYears, List.filterMap_cons, he, h1, h2, h3, h4]

/-- Witness for C2 at the concrete payload of an account created in the
current year with all blocks absent: the current year's zero record is
present, it is counted exactly once, and the list has fewer than 5
entries. -/
theorem absent_years_c2_witness :
    zeroYearMetrics wClock 2025 ∈ yearlyMetricsOf wClock wRawNew ∧
    ((yearlyMetricsOf wClock wRawNew).countP (fun m => m.year == 2025)) = 1 ∧
    (yearlyMetricsOf wClock wRawNew).length < 5 := by
  have h := absent_years_c2 wClock wRawNew 2025 rfl
  have hmem : (2025 : ℤ) ∈ requestedYears wClock := by decide
  refine ⟨((h.1 2025 hmem rfl).2 (by omega)).1, ?_, ?_⟩
  · exact h.2.1 2025 hmem (by omega)
  · exact h.2.2 (by decide) (fun yr hyr => rfl)

end GH
